import Mathlib

/-!
Verification of the KeePassXC scriptable-confirmation component (MessageBox).

The repository excerpt holds two versions of the component:

* version A, src/src/gui/MessageBox.cpp: a single static override slot
  m_nextAnswer of type MessageBox::Button, consulted by the shared helper
  MessageBox::messageBox before any dialog construction;
* version B, src/unnamed/part_000 (the header MessageBox.h) and
  src/unnamed/part_001 (its implementation): two independent static slots,
  m_nextAnswer of the Qt toolkit type QMessageBox::StandardButton consumed by
  critical/information/question/warning, and m_newNextAnswer of type
  MessageBox::Button consumed by newQuestion.

src/src/gui/dbsettings/DatabaseSettingsWidgetMasterKey.cpp holds the caller
DatabaseWidget::deleteEntries, whose hard-delete branch is modelled below.

Machine integers: MessageBox::Button is a C++ enum over uint32_t whose named
values are the bit flags 1 << 1 up to 1 << 20; all arithmetic on them stays far
below 2^32 (the loop shifts a single bit up to position 24 at most, within
uint64_t respectively uint32_t), so values are embedded as Nat with bitwise
operations and no overflow reduction is needed.

Interactive dialog execution (QMessageBox::exec) is modelled by an oracle
argument: the Button value of the button the operator clicks.  The source
translates the clicked handle through the QMap m_buttonMap, which holds exactly
the buttons added in the current invocation and default-constructs
Button(0) = NoButton for an unknown key, so a click outside the displayed
buttons (including window-manager dismissal) yields NoButton.
-/

namespace KeePassXC

namespace Button

/-- MessageBox::Button value NoButton = 0 (src/unnamed/part_000 line 30). -/
def NoButton : Nat := 0

/-- MessageBox::Button value Ok = 1 << 1 (src/unnamed/part_000 line 31). -/
def Ok : Nat := 1 <<< 1

/-- MessageBox::Button value Open = 1 << 2. -/
def Open : Nat := 1 <<< 2

/-- MessageBox::Button value Save = 1 << 3. -/
def Save : Nat := 1 <<< 3

/-- MessageBox::Button value Cancel = 1 << 4. -/
def Cancel : Nat := 1 <<< 4

/-- MessageBox::Button value Close = 1 << 5. -/
def Close : Nat := 1 <<< 5

/-- MessageBox::Button value Discard = 1 << 6. -/
def Discard : Nat := 1 <<< 6

/-- MessageBox::Button value Apply = 1 << 7. -/
def Apply : Nat := 1 <<< 7

/-- MessageBox::Button value Reset = 1 << 8. -/
def Reset : Nat := 1 <<< 8

/-- MessageBox::Button value RestoreDefaults = 1 << 9. -/
def RestoreDefaults : Nat := 1 <<< 9

/-- MessageBox::Button value Help = 1 << 10. -/
def Help : Nat := 1 <<< 10

/-- MessageBox::Button value SaveAll = 1 << 11. -/
def SaveAll : Nat := 1 <<< 11

/-- MessageBox::Button value Yes = 1 << 12. -/
def Yes : Nat := 1 <<< 12

/-- MessageBox::Button value YesToAll = 1 << 13. -/
def YesToAll : Nat := 1 <<< 13

/-- MessageBox::Button value No = 1 << 14. -/
def No : Nat := 1 <<< 14

/-- MessageBox::Button value NoToAll = 1 << 15. -/
def NoToAll : Nat := 1 <<< 15

/-- MessageBox::Button value Abort = 1 << 16. -/
def Abort : Nat := 1 <<< 16

/-- MessageBox::Button value Retry = 1 << 17. -/
def Retry : Nat := 1 <<< 17

/-- MessageBox::Button value Ignore = 1 << 18. -/
def Ignore : Nat := 1 <<< 18

/-- MessageBox::Button value Overwrite = 1 << 19 (KeePassXC-specific). -/
def Overwrite : Nat := 1 <<< 19

/-- MessageBox::Button value Delete = 1 << 20 (KeePassXC-specific); the header
marks it as the loop marker Last (src/unnamed/part_000 lines 51-56). -/
def Delete : Nat := 1 <<< 20

/-- Loop marker First = Ok (src/unnamed/part_000 line 55). -/
def First : Nat := Ok

/-- Loop marker Last = Delete (src/unnamed/part_000 line 56). -/
def Last : Nat := Delete

end Button

/-- The twenty named nonzero MessageBox::Button values, in the ascending
enumeration order of the header src/unnamed/part_000. -/
def buttonValues : List Nat :=
  [Button.Ok, Button.Open, Button.Save, Button.Cancel, Button.Close,
   Button.Discard, Button.Apply, Button.Reset, Button.RestoreDefaults,
   Button.Help, Button.SaveAll, Button.Yes, Button.YesToAll, Button.No,
   Button.NoToAll, Button.Abort, Button.Retry, Button.Ignore,
   Button.Overwrite, Button.Delete]

namespace QtStd

/-- Qt QMessageBox::StandardButton value NoButton = 0x0. -/
def NoButton : Nat := 0x00000000

/-- Qt QMessageBox::StandardButton value Ok = 0x400.  These constants are the
fixed public enumeration values of the external Qt toolkit (qmessagebox.h /
qdialogbuttonbox.h); the Qt header is not part of the excerpt, but the legacy
variant of the component stores and returns values of this type. -/
def Ok : Nat := 0x00000400

/-- Qt QMessageBox::StandardButton value Save = 0x800. -/
def Save : Nat := 0x00000800

/-- Qt QMessageBox::StandardButton value SaveAll = 0x1000. -/
def SaveAll : Nat := 0x00001000

/-- Qt QMessageBox::StandardButton value Open = 0x2000. -/
def Open : Nat := 0x00002000

/-- Qt QMessageBox::StandardButton value Yes = 0x4000. -/
def Yes : Nat := 0x00004000

/-- Qt QMessageBox::StandardButton value YesToAll = 0x8000. -/
def YesToAll : Nat := 0x00008000

/-- Qt QMessageBox::StandardButton value No = 0x10000. -/
def No : Nat := 0x00010000

/-- Qt QMessageBox::StandardButton value NoToAll = 0x20000. -/
def NoToAll : Nat := 0x00020000

/-- Qt QMessageBox::StandardButton value Abort = 0x40000. -/
def Abort : Nat := 0x00040000

/-- Qt QMessageBox::StandardButton value Retry = 0x80000. -/
def Retry : Nat := 0x00080000

/-- Qt QMessageBox::StandardButton value Ignore = 0x100000. -/
def Ignore : Nat := 0x00100000

/-- Qt QMessageBox::StandardButton value Close = 0x200000. -/
def Close : Nat := 0x00200000

/-- Qt QMessageBox::StandardButton value Cancel = 0x400000. -/
def Cancel : Nat := 0x00400000

/-- Qt QMessageBox::StandardButton value Discard = 0x800000. -/
def Discard : Nat := 0x00800000

/-- Qt QMessageBox::StandardButton value Help = 0x1000000. -/
def Help : Nat := 0x01000000

/-- Qt QMessageBox::StandardButton value Apply = 0x2000000. -/
def Apply : Nat := 0x02000000

/-- Qt QMessageBox::StandardButton value Reset = 0x4000000. -/
def Reset : Nat := 0x04000000

/-- Qt QMessageBox::StandardButton value RestoreDefaults = 0x8000000. -/
def RestoreDefaults : Nat := 0x08000000

end QtStd

/-- The eighteen nonzero Qt StandardButton values, in ascending numeric order. -/
def qtStandardValues : List Nat :=
  [QtStd.Ok, QtStd.Save, QtStd.SaveAll, QtStd.Open, QtStd.Yes, QtStd.YesToAll,
   QtStd.No, QtStd.NoToAll, QtStd.Abort, QtStd.Retry, QtStd.Ignore,
   QtStd.Close, QtStd.Cancel, QtStd.Discard, QtStd.Help, QtStd.Apply,
   QtStd.Reset, QtStd.RestoreDefaults]

/-- The values taken by the loop variable b of the button-construction loop
(for b = First; b <= Last; b <<= 1): the single-bit values 1 << 1 up to
1 << lastExp, in the order the loop visits them.  lastExp is the bit position
of the Last marker: 20 (Delete) for the version in src/unnamed/part_001. -/
def loopValues (lastExp : Nat) : List Nat :=
  (List.range lastExp).map (fun i => 1 <<< (i + 1))

/-- The sequence of Button values added to the dialog by the loop
for (b = First; b <= Last; b <<= 1) if (b & buttons) addButton(...);
(src/src/gui/MessageBox.cpp lines 38-42, src/unnamed/part_001 lines 81-85):
the loop values that share a bit with the requested mask, in loop order. -/
def buildButtons (lastExp buttons : Nat) : List Nat :=
  (loopValues lastExp).filter (fun b => b &&& buttons != 0)

/-- Modelled from the spec: the header declaring the Button enumeration used by
src/src/gui/MessageBox.cpp is missing from the excerpt.  Its addButton switch
(lines 169-186) shows four application kinds Move, Empty, Remove, Skip beyond
Delete, and the spec data model lists them in that order, so that version's
Last marker is modelled as bit position 24 (Skip = 1 << 24). -/
def lastExpA : Nat := 24

/-- Bit position of the Last marker (Delete = 1 << 20) of the version in
src/unnamed/part_000 / part_001. -/
def lastExpB : Nat := 20

/-- What the component did to the dialog on one invocation that constructed
one: the Button values added, in order, and the value whose button was marked
default (none when setDefaultButton was not called). -/
structure DialogTrace where
  buttons : List Nat
  defaultSet : Option Nat
deriving DecidableEq, Repr

/-- Observable outcome of one confirmation call: the dialog trace (none when
the override path returned without constructing a dialog) and the returned
Button value. -/
structure Outcome where
  dialog : Option DialogTrace
  ret : Nat
deriving DecidableEq, Repr

/-- Translation of the clicked button through m_buttonMap
(Button returnButton = m_buttonMap[box.clickedButton()]): the map holds exactly
the buttons added this invocation, and QMap operator[] default-constructs
Button(0) = NoButton for a key not in the map. -/
def lookupClicked (bs : List Nat) (click : Nat) : Nat :=
  if click ∈ bs then click else Button.NoButton

namespace MBoxA

/-- MessageBox::setNextAnswer (src/src/gui/MessageBox.cpp lines 100-103):
plain assignment m_nextAnswer = button; the result is the new slot value,
whatever the old one was. -/
def setNextAnswer (old button : Nat) : Nat := button

/-- MessageBox::messageBox (src/src/gui/MessageBox.cpp lines 25-62), the shared
helper behind critical/information/question/warning of version A.  State is the
single slot m_nextAnswer (a Button value); the result pairs the observable
outcome with the slot value after the call.  When the slot is NoButton the
dialog path runs: buttons are added in loop order, the default button is set
when m_buttonMap.keys(defaultButton) is non-empty, i.e. when defaultButton is
among the added buttons, and the clicked button is translated through the map.
Otherwise the slot is read, reset to NoButton and returned with no dialog. -/
def messageBox (nextAnswer buttons defaultButton click : Nat) : Outcome × Nat :=
  if nextAnswer = Button.NoButton then
    let bs := buildButtons lastExpA buttons
    let d : Option Nat :=
      if defaultButton ≠ Button.NoButton ∧ defaultButton ∈ bs then
        some defaultButton
      else none
    ({ dialog := some { buttons := bs, defaultSet := d },
       ret := lookupClicked bs click }, Button.NoButton)
  else
    ({ dialog := none, ret := nextAnswer }, Button.NoButton)

end MBoxA

namespace MBoxB

/-- The two static override slots of version B (src/unnamed/part_001 lines
20-21): m_nextAnswer holds a Qt StandardButton value, m_newNextAnswer a
MessageBox::Button value. -/
structure MBState where
  m_nextAnswer : Nat
  m_newNextAnswer : Nat
deriving DecidableEq, Repr

/-- Both slots initialized to the respective NoButton (= 0) at process start
(src/unnamed/part_001 lines 20-21). -/
def initState : MBState :=
  { m_nextAnswer := QtStd.NoButton, m_newNextAnswer := Button.NoButton }

/-- MessageBox::setNextAnswer (src/unnamed/part_001 lines 116-119):
m_nextAnswer = button. -/
def setNextAnswer (s : MBState) (button : Nat) : MBState :=
  { s with m_nextAnswer := button }

/-- MessageBox::setNewNextAnswer (src/unnamed/part_001 lines 121-124):
m_newNextAnswer = button. -/
def setNewNextAnswer (s : MBState) (button : Nat) : MBState :=
  { s with m_newNextAnswer := button }

/-- MessageBox::critical (src/unnamed/part_001 lines 24-37): with the legacy
slot clear it delegates to the toolkit dialog QMessageBox::critical, whose
interactive result is the oracle qtAnswer; otherwise it consumes the legacy
slot.  Result pairs the returned StandardButton value with the new state. -/
def critical (s : MBState) (qtAnswer : Nat) : Nat × MBState :=
  if s.m_nextAnswer = QtStd.NoButton then
    (qtAnswer, s)
  else
    (s.m_nextAnswer, { s with m_nextAnswer := QtStd.NoButton })

/-- MessageBox::information (src/unnamed/part_001 lines 39-52); same protocol
as critical. -/
def information (s : MBState) (qtAnswer : Nat) : Nat × MBState :=
  if s.m_nextAnswer = QtStd.NoButton then
    (qtAnswer, s)
  else
    (s.m_nextAnswer, { s with m_nextAnswer := QtStd.NoButton })

/-- MessageBox::question (src/unnamed/part_001 lines 54-67); same protocol as
critical. -/
def question (s : MBState) (qtAnswer : Nat) : Nat × MBState :=
  if s.m_nextAnswer = QtStd.NoButton then
    (qtAnswer, s)
  else
    (s.m_nextAnswer, { s with m_nextAnswer := QtStd.NoButton })

/-- MessageBox::warning (src/unnamed/part_001 lines 101-114); same protocol as
critical. -/
def warning (s : MBState) (qtAnswer : Nat) : Nat × MBState :=
  if s.m_nextAnswer = QtStd.NoButton then
    (qtAnswer, s)
  else
    (s.m_nextAnswer, { s with m_nextAnswer := QtStd.NoButton })

/-- MessageBox::newQuestion (src/unnamed/part_001 lines 69-99).  With the
m_newNextAnswer slot clear it constructs the dialog, adds the buttons in loop
order and translates the clicked button through the map; the defaultButton
parameter is received but never used (the setDefaultButton call at line 87 is
commented out), so no default is ever marked.  Otherwise it consumes the
m_newNextAnswer slot and returns its value with no dialog. -/
def newQuestion (s : MBState) (buttons defaultButton click : Nat) :
    Outcome × MBState :=
  if s.m_newNextAnswer = Button.NoButton then
    let bs := buildButtons lastExpB buttons
    ({ dialog := some { buttons := bs, defaultSet := none },
       ret := lookupClicked bs click }, s)
  else
    ({ dialog := none, ret := s.m_newNextAnswer },
     { s with m_newNextAnswer := Button.NoButton })

end MBoxB

/-- Trace of the confirmation part of the hard-delete branch of
DatabaseWidget::deleteEntries
(src/src/gui/dbsettings/DatabaseSettingsWidgetMasterKey.cpp lines 680-721):
the first newQuestion answer, the second newQuestion answer obtained right
after setNewNextAnswer(NoToAll), whether the branch calling
QApplication::exit(22) fires, and the final MessageBox state.  The entry
deletion performed between the two calls touches no MessageBox state and is
outside the model. -/
structure DeleteEntriesTrace where
  firstAnswer : Outcome
  secondAnswer : Outcome
  exitsWith22 : Bool
  final : MBoxB.MBState
deriving DecidableEq, Repr

/-- The two newQuestion calls of the hard-delete branch of
DatabaseWidget::deleteEntries, with the intervening
MessageBox::setNewNextAnswer(MessageBox::NoToAll): both request
Delete | Cancel with the defaulted defaultButton = NoButton; the oracles c1, c2
model the operator's clicks should a dialog appear.  The exit(22) branch fires
exactly when the second answer differs from NoToAll. -/
def deleteEntriesConfirm (s : MBoxB.MBState) (c1 c2 : Nat) :
    DeleteEntriesTrace :=
  let r1 := MBoxB.newQuestion s (Button.Delete ||| Button.Cancel)
      Button.NoButton c1
  let s2 := MBoxB.setNewNextAnswer r1.2 Button.NoToAll
  let r2 := MBoxB.newQuestion s2 (Button.Delete ||| Button.Cancel)
      Button.NoButton c2
  { firstAnswer := r1.1, secondAnswer := r2.1,
    exitsWith22 := r2.1.ret != Button.NoToAll, final := r2.2 }

/-- Every value visited by the button-construction loop is a nonzero power of
two, hence never the NoButton sentinel. -/
theorem mem_loopValues_ne_zero {e x : Nat} (h : x ∈ loopValues e) :
    x ≠ Button.NoButton := by
  unfold loopValues at h
  simp only [List.mem_map, List.mem_range] at h
  obtain ⟨i, hi, rfl⟩ := h
  have h2 : (0 : Nat) < 2 ^ (i + 1) := Nat.two_pow_pos (i + 1)
  simp only [Button.NoButton, Nat.shiftLeft_eq, Nat.one_mul]
  omega

/-- Membership in the constructed button list: exactly the loop values sharing
a bit with the requested mask. -/
theorem mem_buildButtons {e R x : Nat} :
    x ∈ buildButtons e R ↔ x ∈ loopValues e ∧ x &&& R ≠ 0 := by
  unfold buildButtons
  simp [List.mem_filter]

/-- A button realized for some requested set is never NoButton. -/
theorem mem_buildButtons_ne_zero {e R x : Nat} (h : x ∈ buildButtons e R) :
    x ≠ Button.NoButton :=
  mem_loopValues_ne_zero (mem_buildButtons.mp h).1

/-- The constructed button list is strictly increasing: the loop visits the
single-bit values in ascending order and filtering preserves that order. -/
theorem buildButtons_pairwise (e R : Nat) :
    List.Pairwise (· < ·) (buildButtons e R) := by
  unfold buildButtons loopValues
  refine List.Pairwise.filter _ ?_
  refine List.Pairwise.map _ ?_ (List.pairwise_lt_range e)
  intro a b hab
  simp only [Nat.shiftLeft_eq, Nat.one_mul]
  exact Nat.pow_lt_pow_right (by norm_num) (by omega)

/-- C1: for every button k realized for a requested set R, setting the
override to k makes the next confirmation call return k immediately with no
dialog and reset the slot to NoButton, and the following confirmation call
behaves exactly as if no override had been set (the override is consumed once,
never twice) — in version A (messageBox with setNextAnswer) and in version B
(newQuestion with setNewNextAnswer). -/
theorem claim_C1_override_consumed_once
    (R k d c R2 d2 c2 : Nat) (s : MBoxB.MBState)
    (hk : k ∈ buildButtons lastExpB R) :
    ((MBoxA.messageBox (MBoxA.setNextAnswer Button.NoButton k) R d c).1.ret = k ∧
     (MBoxA.messageBox (MBoxA.setNextAnswer Button.NoButton k) R d c).1.dialog = none ∧
     (MBoxA.messageBox (MBoxA.setNextAnswer Button.NoButton k) R d c).2 = Button.NoButton ∧
     MBoxA.messageBox (MBoxA.messageBox (MBoxA.setNextAnswer Button.NoButton k) R d c).2 R2 d2 c2
       = MBoxA.messageBox Button.NoButton R2 d2 c2 ∧
     (MBoxA.messageBox Button.NoButton R2 d2 c2).1.dialog ≠ none) ∧
    ((MBoxB.newQuestion (MBoxB.setNewNextAnswer s k) R d c).1.ret = k ∧
     (MBoxB.newQuestion (MBoxB.setNewNextAnswer s k) R d c).1.dialog = none ∧
     (MBoxB.newQuestion (MBoxB.setNewNextAnswer s k) R d c).2
       = MBoxB.setNewNextAnswer s Button.NoButton ∧
     (MBoxB.newQuestion (MBoxB.newQuestion (MBoxB.setNewNextAnswer s k) R d c).2 R2 d2 c2).1.dialog
       ≠ none) := by
  have hk0 : k ≠ Button.NoButton := mem_buildButtons_ne_zero hk
  simp [MBoxA.messageBox, MBoxA.setNextAnswer, MBoxB.newQuestion,
    MBoxB.setNewNextAnswer, hk0]

/-- C1 witness at k = Ok, R = Ok or-ed with Cancel. -/
theorem claim_C1_witness :
    Button.Ok ∈ buildButtons lastExpB (Button.Ok ||| Button.Cancel) ∧
    (MBoxA.messageBox (MBoxA.setNextAnswer Button.NoButton Button.Ok)
      (Button.Ok ||| Button.Cancel) Button.Cancel 0).1.ret = Button.Ok :=
  ⟨by decide,
   ((claim_C1_override_consumed_once (Button.Ok ||| Button.Cancel) Button.Ok
      Button.Cancel 0 (Button.Ok ||| Button.Cancel) Button.Cancel 0
      MBoxB.initState (by decide)).1).1⟩

/-- C2: when the override slot holds a nonzero value k, the confirmation call
returns exactly the outcome with ret = k and no dialog, independent of the
requested set, the default button and the click oracle — two runs with
different argument vectors produce identical outcomes, even when k is not a
member of the requested set. -/
theorem claim_C2_override_argument_independent
    (k R1 R2 d1 d2 c1 c2 : Nat) (s : MBoxB.MBState)
    (hk : k ≠ Button.NoButton) :
    (MBoxA.messageBox k R1 d1 c1).1 = { dialog := none, ret := k } ∧
    (MBoxA.messageBox k R2 d2 c2).1 = { dialog := none, ret := k } ∧
    (MBoxB.newQuestion (MBoxB.setNewNextAnswer s k) R1 d1 c1).1
      = { dialog := none, ret := k } ∧
    (MBoxB.newQuestion (MBoxB.setNewNextAnswer s k) R2 d2 c2).1
      = { dialog := none, ret := k } := by
  simp [MBoxA.messageBox, MBoxB.newQuestion, MBoxB.setNewNextAnswer, hk]

/-- C2 witness at the spec scenario: override NoToAll, requested set
Delete or-ed with Cancel, default Cancel — NoToAll is returned although it is
not a member of the requested set. -/
theorem claim_C2_witness :
    Button.NoToAll ∉ buildButtons lastExpB (Button.Delete ||| Button.Cancel) ∧
    (MBoxA.messageBox Button.NoToAll (Button.Delete ||| Button.Cancel)
      Button.Cancel 0).1 = { dialog := none, ret := Button.NoToAll } ∧
    (MBoxB.newQuestion (MBoxB.setNewNextAnswer MBoxB.initState Button.NoToAll)
      (Button.Delete ||| Button.Cancel) Button.Cancel 0).1
      = { dialog := none, ret := Button.NoToAll } :=
  ⟨by decide,
   (claim_C2_override_argument_independent Button.NoToAll
      (Button.Delete ||| Button.Cancel) 0 Button.Cancel 0 0 0
      MBoxB.initState (by decide)).1,
   (claim_C2_override_argument_independent Button.NoToAll
      (Button.Delete ||| Button.Cancel) 0 Button.Cancel 0 0 0
      MBoxB.initState (by decide)).2.2.1⟩

/-- C3: the button sequence added to the dialog is strictly ascending in the
fixed enumeration order, is a function of the requested bit set alone
(independent of the order in which the caller or-ed values together), consists
exactly of the loop values sharing a bit with the mask, and requesting Cancel
or-ed with Ok yields the order Ok then Cancel; the dialog constructed by
either version carries exactly this sequence. -/
theorem claim_C3_button_order
    (e R a b d c a0 : Nat) :
    List.Pairwise (· < ·) (buildButtons e R) ∧
    buildButtons e (a ||| b) = buildButtons e (b ||| a) ∧
    (∀ x, x ∈ buildButtons e R ↔ x ∈ loopValues e ∧ x &&& R ≠ 0) ∧
    buildButtons lastExpB (Button.Cancel ||| Button.Ok)
      = [Button.Ok, Button.Cancel] ∧
    ((MBoxA.messageBox Button.NoButton R d c).1.dialog.map DialogTrace.buttons)
      = some (buildButtons lastExpA R) ∧
    ((MBoxB.newQuestion { m_nextAnswer := a0, m_newNextAnswer := Button.NoButton }
        R d c).1.dialog.map DialogTrace.buttons)
      = some (buildButtons lastExpB R) := by
  refine ⟨buildButtons_pairwise e R, by rw [Nat.lor_comm],
    fun x => mem_buildButtons, by decide, ?_, ?_⟩
  · simp [MBoxA.messageBox]
  · simp [MBoxB.newQuestion]

/-- C4 counterexample: the claim fails for newQuestion in src/unnamed/part_001:
with requested set containing Ok and defaultButton = Ok (a member of the set),
the constructed dialog marks no default button, because the defaultButton
parameter is ignored (the setDefaultButton call at line 87 is commented out). -/
theorem claim_C4_counterexample :
    Button.Ok ∈ buildButtons lastExpB Button.Ok ∧
    (MBoxB.newQuestion MBoxB.initState Button.Ok Button.Ok Button.Ok).1.dialog
      = some { buttons := [Button.Ok], defaultSet := none } ∧
    (some { buttons := [Button.Ok], defaultSet := none } : Option DialogTrace)
      ≠ some { buttons := [Button.Ok], defaultSet := some Button.Ok } := by
  decide

/-- C4 amended: in version A's messageBox a defaultResponse that is a member of
the realized button set is marked default and a non-member (including NoButton)
leaves no default; version B's newQuestion ignores its defaultButton parameter
entirely and never marks a default; in all cases the call succeeds with a
constructed dialog. -/
theorem claim_C4_default_marking (R d c a0 : Nat) :
    (d ∈ buildButtons lastExpA R →
      (MBoxA.messageBox Button.NoButton R d c).1.dialog
        = some { buttons := buildButtons lastExpA R, defaultSet := some d }) ∧
    (d ∉ buildButtons lastExpA R →
      (MBoxA.messageBox Button.NoButton R d c).1.dialog
        = some { buttons := buildButtons lastExpA R, defaultSet := none }) ∧
    ((MBoxB.newQuestion { m_nextAnswer := a0, m_newNextAnswer := Button.NoButton }
        R d c).1.dialog
      = some { buttons := buildButtons lastExpB R, defaultSet := none }) := by
  refine ⟨?_, ?_, ?_⟩
  · intro hmem
    have hd0 : d ≠ Button.NoButton := mem_buildButtons_ne_zero hmem
    simp [MBoxA.messageBox, hmem, hd0]
  · intro hmem
    simp [MBoxA.messageBox, hmem]
  · simp [MBoxB.newQuestion]

/-- C4 witness: member default Cancel is marked, non-member default Delete is
not, for requested set Ok or-ed with Cancel in version A. -/
theorem claim_C4_witness :
    (MBoxA.messageBox Button.NoButton (Button.Ok ||| Button.Cancel)
      Button.Cancel 0).1.dialog
      = some { buttons := buildButtons lastExpA (Button.Ok ||| Button.Cancel),
               defaultSet := some Button.Cancel } ∧
    (MBoxA.messageBox Button.NoButton (Button.Ok ||| Button.Cancel)
      Button.Delete 0).1.dialog
      = some { buttons := buildButtons lastExpA (Button.Ok ||| Button.Cancel),
               defaultSet := none } :=
  ⟨(claim_C4_default_marking (Button.Ok ||| Button.Cancel) Button.Cancel 0 0).1
      (by decide),
   (claim_C4_default_marking (Button.Ok ||| Button.Cancel) Button.Delete 0 0).2.1
      (by decide)⟩

/-- C5 counterexample: with no pending override and an empty requested set,
both versions construct and show a buttonless dialog and return the Button
value NoButton; no assertion-style guard exists in MessageBox. -/
theorem claim_C5_counterexample :
    (MBoxA.messageBox Button.NoButton 0 Button.NoButton 0).1
      = { dialog := some { buttons := [], defaultSet := none },
          ret := Button.NoButton } ∧
    (MBoxB.newQuestion MBoxB.initState 0 Button.NoButton 0).1
      = { dialog := some { buttons := [], defaultSet := none },
          ret := Button.NoButton } := by
  decide

/-- C5 amended: requesting an empty button set with no pending override is not
guarded by any assertion-style check in MessageBox: messageBox and newQuestion
silently construct and show a dialog with an empty button list and return
NoButton (the button map's default value for the clicked handle), for every
defaultButton and every click. -/
theorem claim_C5_empty_set_unguarded (d c a0 : Nat) :
    (MBoxA.messageBox Button.NoButton 0 d c).1
      = { dialog := some { buttons := [], defaultSet := none },
          ret := Button.NoButton } ∧
    (MBoxB.newQuestion { m_nextAnswer := a0, m_newNextAnswer := Button.NoButton }
        0 d c).1
      = { dialog := some { buttons := [], defaultSet := none },
          ret := Button.NoButton } := by
  have h1 : buildButtons lastExpA 0 = [] := by decide
  have h2 : buildButtons lastExpB 0 = [] := by decide
  simp [MBoxA.messageBox, MBoxB.newQuestion, lookupClicked, h1, h2]

/-- C6: the two override slots of version B are independent: each setter
mutates only its own slot, each legacy confirmation variant
(critical/information/question/warning) reads and consumes only m_nextAnswer
and leaves m_newNextAnswer unchanged, and newQuestion reads and consumes only
m_newNextAnswer and leaves m_nextAnswer unchanged; the outcome of each variant
does not depend on the other slot. -/
theorem claim_C6_slot_independence
    (s : MBoxB.MBState) (b qa R d c : Nat) :
    (MBoxB.setNewNextAnswer s b).m_nextAnswer = s.m_nextAnswer ∧
    (MBoxB.setNewNextAnswer s b).m_newNextAnswer = b ∧
    (MBoxB.setNextAnswer s b).m_newNextAnswer = s.m_newNextAnswer ∧
    (MBoxB.setNextAnswer s b).m_nextAnswer = b ∧
    (MBoxB.critical s qa).2.m_newNextAnswer = s.m_newNextAnswer ∧
    (MBoxB.information s qa).2.m_newNextAnswer = s.m_newNextAnswer ∧
    (MBoxB.question s qa).2.m_newNextAnswer = s.m_newNextAnswer ∧
    (MBoxB.warning s qa).2.m_newNextAnswer = s.m_newNextAnswer ∧
    (MBoxB.newQuestion s R d c).2.m_nextAnswer = s.m_nextAnswer ∧
    (MBoxB.question { s with m_newNextAnswer := b } qa).1
      = (MBoxB.question s qa).1 ∧
    (MBoxB.newQuestion { s with m_nextAnswer := b } R d c).1
      = (MBoxB.newQuestion s R d c).1 := by
  refine ⟨rfl, rfl, rfl, rfl, ?_, ?_, ?_, ?_, ?_, ?_, ?_⟩
  · unfold MBoxB.critical
    split <;> rfl
  · unfold MBoxB.information
    split <;> rfl
  · unfold MBoxB.question
    split <;> rfl
  · unfold MBoxB.warning
    split <;> rfl
  · unfold MBoxB.newQuestion
    split <;> rfl
  · unfold MBoxB.question
    split <;> rfl
  · unfold MBoxB.newQuestion
    split <;> rfl

/-- C7 counterexample: the claim that every MessageBox::Button value is
numerically distinct from every Qt StandardButton value fails: the Button
value Help (1 << 10) equals the Qt StandardButton value Ok (0x400). -/
theorem claim_C7_counterexample :
    Button.Help ∈ buttonValues ∧ QtStd.Ok ∈ qtStandardValues ∧
    Button.Help = QtStd.Ok := by
  decide

/-- C7 amended: the two numeric ranges overlap on bit positions 10 through 20:
the Button values Help (1 << 10) through Delete (1 << 20) are exactly those
equal to some Qt StandardButton value, and the Qt values Ok (0x400) through
Ignore (0x100000) are exactly those equal to some Button value — eleven
colliding pairs — so unifying the two slots by raw value would conflate
distinct response kinds; the variants avoid collision only because they keep
two separately typed slots. -/
theorem claim_C7_range_overlap :
    buttonValues.filter (fun x => decide (x ∈ qtStandardValues))
      = [Button.Help, Button.SaveAll, Button.Yes, Button.YesToAll, Button.No,
         Button.NoToAll, Button.Abort, Button.Retry, Button.Ignore,
         Button.Overwrite, Button.Delete] ∧
    qtStandardValues.filter (fun x => decide (x ∈ buttonValues))
      = [QtStd.Ok, QtStd.Save, QtStd.SaveAll, QtStd.Open, QtStd.Yes,
         QtStd.YesToAll, QtStd.No, QtStd.NoToAll, QtStd.Abort, QtStd.Retry,
         QtStd.Ignore] := by
  decide

/-- C8: the setters overwrite the pending override unconditionally: after
setting a then b, the slot holds exactly b, the next confirmation call returns
b, and the first value a (when different from b) is never returned — in both
versions and for both slots of version B. -/
theorem claim_C8_overwrite
    (a b R d c : Nat) (s : MBoxB.MBState) (hb : b ≠ Button.NoButton) :
    MBoxA.setNextAnswer (MBoxA.setNextAnswer Button.NoButton a) b = b ∧
    (MBoxA.messageBox (MBoxA.setNextAnswer (MBoxA.setNextAnswer Button.NoButton a) b)
        R d c).1.ret = b ∧
    MBoxB.setNewNextAnswer (MBoxB.setNewNextAnswer s a) b
      = MBoxB.setNewNextAnswer s b ∧
    MBoxB.setNextAnswer (MBoxB.setNextAnswer s a) b = MBoxB.setNextAnswer s b ∧
    (MBoxB.newQuestion (MBoxB.setNewNextAnswer (MBoxB.setNewNextAnswer s a) b)
        R d c).1.ret = b ∧
    (a ≠ b →
      (MBoxB.newQuestion (MBoxB.setNewNextAnswer (MBoxB.setNewNextAnswer s a) b)
          R d c).1.ret ≠ a) := by
  refine ⟨rfl, ?_, rfl, rfl, ?_, ?_⟩
  · simp [MBoxA.messageBox, MBoxA.setNextAnswer, hb]
  · simp [MBoxB.newQuestion, MBoxB.setNewNextAnswer, hb]
  · intro hab
    simp [MBoxB.newQuestion, MBoxB.setNewNextAnswer, hb]
    omega

/-- C8 witness at a = Ok, b = Cancel. -/
theorem claim_C8_witness :
    (MBoxB.newQuestion
      (MBoxB.setNewNextAnswer (MBoxB.setNewNextAnswer MBoxB.initState Button.Ok)
        Button.Cancel) (Button.Ok ||| Button.Cancel) 0 0).1.ret = Button.Cancel ∧
    (MBoxB.newQuestion
      (MBoxB.setNewNextAnswer (MBoxB.setNewNextAnswer MBoxB.initState Button.Ok)
        Button.Cancel) (Button.Ok ||| Button.Cancel) 0 0).1.ret ≠ Button.Ok :=
  ⟨(claim_C8_overwrite Button.Ok Button.Cancel (Button.Ok ||| Button.Cancel)
      0 0 MBoxB.initState (by decide)).2.2.2.2.1,
   (claim_C8_overwrite Button.Ok Button.Cancel (Button.Ok ||| Button.Cancel)
      0 0 MBoxB.initState (by decide)).2.2.2.2.2 (by decide)⟩

/-- C9: in the hard-delete branch of DatabaseWidget::deleteEntries, the second
newQuestion call, issued directly after setNewNextAnswer(NoToAll), always
returns NoToAll through the override path with no dialog, so the branch
calling QApplication::exit(22) never fires — from every starting MessageBox
state and for all operator clicks. -/
theorem claim_C9_exit_branch_unreachable (s : MBoxB.MBState) (c1 c2 : Nat) :
    (deleteEntriesConfirm s c1 c2).secondAnswer.ret = Button.NoToAll ∧
    (deleteEntriesConfirm s c1 c2).secondAnswer.dialog = none ∧
    (deleteEntriesConfirm s c1 c2).exitsWith22 = false := by
  have hno : Button.NoToAll ≠ Button.NoButton := by decide
  unfold deleteEntriesConfirm
  by_cases h : s.m_newNextAnswer = Button.NoButton <;>
    simp [MBoxB.newQuestion, MBoxB.setNewNextAnswer, h, hno]

/-- C10: setting the override to NoButton clears it rather than scripting a
NoButton answer: the next confirmation call takes the dialog path; the
override path is taken exactly when the slot differs from NoButton and then
returns the slot value, so NoButton can never be returned through the
override path — the sentinel for no override and the NoButton value coincide
at the public interface. -/
theorem claim_C10_nobutton_clears
    (R d c a0 : Nat) (s : MBoxB.MBState) :
    ((MBoxA.messageBox (MBoxA.setNextAnswer a0 Button.NoButton) R d c).1.dialog
      ≠ none) ∧
    ((MBoxB.newQuestion (MBoxB.setNewNextAnswer s Button.NoButton) R d c).1.dialog
      ≠ none) ∧
    ((MBoxA.messageBox a0 R d c).1.dialog = none ↔ a0 ≠ Button.NoButton) ∧
    ((MBoxA.messageBox a0 R d c).1.dialog = none →
      (MBoxA.messageBox a0 R d c).1.ret = a0 ∧
      (MBoxA.messageBox a0 R d c).1.ret ≠ Button.NoButton) ∧
    ((MBoxB.newQuestion s R d c).1.dialog = none ↔
      s.m_newNextAnswer ≠ Button.NoButton) ∧
    ((MBoxB.newQuestion s R d c).1.dialog = none →
      (MBoxB.newQuestion s R d c).1.ret ≠ Button.NoButton) := by
  by_cases h : a0 = Button.NoButton <;>
    by_cases h2 : s.m_newNextAnswer = Button.NoButton <;>
      simp [MBoxA.messageBox, MBoxA.setNextAnswer, MBoxB.newQuestion,
        MBoxB.setNewNextAnswer, h, h2]

/-- C10 witness: with the override slot holding Ok, the override path is taken
and the returned value is not NoButton, in both versions. -/
theorem claim_C10_witness :
    (MBoxA.messageBox Button.Ok 0 0 0).1.ret = Button.Ok ∧
    (MBoxA.messageBox Button.Ok 0 0 0).1.ret ≠ Button.NoButton ∧
    (MBoxB.newQuestion { m_nextAnswer := 0, m_newNextAnswer := Button.Ok }
      0 0 0).1.ret ≠ Button.NoButton :=
  ⟨((claim_C10_nobutton_clears 0 0 0 Button.Ok MBoxB.initState).2.2.2.1
      (by decide)).1,
   ((claim_C10_nobutton_clears 0 0 0 Button.Ok MBoxB.initState).2.2.2.1
      (by decide)).2,
   (claim_C10_nobutton_clears 0 0 0 Button.Ok
      { m_nextAnswer := 0, m_newNextAnswer := Button.Ok }).2.2.2.2.2
      (by decide)⟩

end KeePassXC
